import Mathlib

/-!
Shallow embedding of the call-tracking server (`src/server.js`) of the
Lets-Learn-Quran-Academy repository: an in-memory call record store, a
reconciliation engine fed by three channels (origination, provider webhook,
active poll), and a WebSocket fan-out.

Modelling conventions:
* Machine time (`Date.now()`) is a `Nat` of milliseconds passed in explicitly.
* JavaScript truthiness on optional strings / timestamps is modelled by
  explicit `jsTruthy*` functions (`undefined`, "" and `0` are falsy).
* The Twilio client is an oracle: provider responses are parameters of the
  step functions, and `hasClient : Bool` models `twilioClient !== null`.
* `setTimeout`-scheduled work (record eviction, delayed recording fetch) is
  returned as a flag, since it does not run inside the handler.
-/

namespace CallServer

/-- The Twilio call-status vocabulary used by the server:
`initiated/queued/ringing/in-progress` are live, the other five terminal. -/
inductive CStatus
  | queued | initiated | ringing | inProgress
  | completed | busy | noAnswer | canceled | failed
  deriving DecidableEq, Repr

/-- `['completed', 'busy', 'no-answer', 'canceled', 'failed']` (server.js:216, 685). -/
def terminalStatuses : List CStatus :=
  [.completed, .busy, .noAnswer, .canceled, .failed]

/-- One entry of the `activeCalls` map (server.js:170-179). -/
structure CallRec where
  sid : String
  toNumber : Option String
  name : Option String
  status : CStatus
  duration : Nat
  startTime : Nat
  answeredTime : Option Nat
  recordingUrl : Option String
  recordingSid : Option String
  lastUpdate : Option Nat
  deriving DecidableEq, Repr

/-- JS truthiness of an optional string: `undefined` and `""` are falsy. -/
def jsTruthyStr : Option String → Bool
  | none => false
  | some s => s ≠ ""

/-- JS truthiness of an optional millisecond timestamp: `undefined` and `0` are falsy. -/
def jsTruthyTime : Option Nat → Bool
  | none => false
  | some t => t ≠ 0

/-- `a || b` on numbers coming out of `parseInt` (`NaN` modelled as `none`,
`0` falsy): `parseInt(x) || b`. -/
def jsOrNat (a : Option Nat) (b : Nat) : Nat :=
  match a with
  | none => b
  | some d => if d = 0 then b else d

/-- `a || b` on optional strings: first operand wins iff truthy. -/
def jsOrStr (a b : Option String) : Option String :=
  if jsTruthyStr a then a else b

/-- The `activeCalls` map: association list keyed by call SID. -/
abbrev Store := List (String × CallRec)

/-- `activeCalls.get(sid)`. -/
def Store.get : Store → String → Option CallRec
  | [], _ => none
  | (k, v) :: rest, sid => if k = sid then some v else Store.get rest sid

/-- `activeCalls.set(sid, rec)`: replace in place or append. -/
def Store.set : Store → String → CallRec → Store
  | [], sid, v => [(sid, v)]
  | (k, w) :: rest, sid, v =>
      if k = sid then (sid, v) :: rest else (k, w) :: Store.set rest sid v

@[simp] theorem Store.get_set_self (s : Store) (sid : String) (v : CallRec) :
    (s.set sid v).get sid = some v := by
  induction s with
  | nil => simp [Store.set, Store.get]
  | cons hd tl ih =>
      obtain ⟨k, w⟩ := hd
      by_cases h : k = sid <;> simp [Store.set, Store.get, h, ih]

/-- One fan-out event `{callSid, status, duration, recordingUrl, timestamp}`
built by `broadcastCallStatus` (server.js:112-119). -/
structure Event where
  callSid : String
  status : CStatus
  duration : Nat
  recordingUrl : Option String
  timestamp : Nat
  deriving DecidableEq, Repr

/-- One WebSocket subscriber: connection openness plus the optional
`subscribedCallSid` filter (server.js:90-91, 124). -/
structure WsClient where
  cid : Nat
  isOpen : Bool
  subscribedCallSid : Option String
  deriving DecidableEq, Repr

/-- `!client.subscribedCallSid || client.subscribedCallSid === callSid`
(server.js:126). -/
def filterAllows (f : Option String) (callSid : String) : Bool :=
  !(jsTruthyStr f) || (f = some callSid)

/-- A client receives a broadcast iff its socket is OPEN and its filter is
absent or matches (server.js:123-129). -/
def receivesBroadcast (c : WsClient) (callSid : String) : Bool :=
  c.isOpen && filterAllows c.subscribedCallSid callSid

/-- `broadcastCallStatus`: the set of clients the event is delivered to.
Delivery is a per-client independent check over the client set. -/
def broadcastRecipients (clients : List WsClient) (callSid : String) : List WsClient :=
  clients.filter (fun c => receivesBroadcast c callSid)

/-- An incoming WebSocket message, after `JSON.parse`: the fields the handler
looks at (server.js:86-93). Both the `callSid` field used by the code and the
`callId` field named in the spec are carried, so a spec-shaped message can be
expressed. -/
structure WsMsg where
  type : String
  callSid : Option String
  callId : Option String
  deriving DecidableEq, Repr

/-- `ws.on('message')` handler (server.js:83-97): replies `PONG` to `PING`,
and on `{type:'SUBSCRIBE_CALL'}` with a truthy `callSid` narrows the
connection's filter. Returns the updated client and the reply types sent. -/
def handleWsMessage (c : WsClient) (m : WsMsg) : WsClient × List String :=
  let replies := if m.type = "PING" then ["PONG"] else []
  let c' :=
    if m.type = "SUBSCRIBE_CALL" && jsTruthyStr m.callSid then
      { c with subscribedCallSid := m.callSid }
    else c
  (c', replies)

/-! ### POST /make-call (server.js:138-199) -/

/-- The JSON response of `/make-call`. -/
structure MakeCallResp where
  code : Nat
  success : Bool
  callSid : Option String
  errorMsg : Option String
  deriving DecidableEq, Repr

/-- `POST /make-call`: validates `to`, requires the Twilio client, then calls
`twilioClient.calls.create` (the oracle `createRes`: provider error message or
the provider-issued `call.sid`). On success the record is stored under
`call.sid` with status `initiated` and one broadcast is emitted; on provider
failure nothing is stored or broadcast and a 500 carries the provider message. -/
def makeCall (s : Store) (toNumber name : Option String) (hasClient : Bool)
    (createRes : Except String String) (now : Nat) :
    Store × List Event × MakeCallResp :=
  if jsTruthyStr toNumber = false then
    (s, [], ⟨400, false, none, some "Phone number required"⟩)
  else if hasClient = false then
    (s, [], ⟨500, false, none, some "Twilio not configured"⟩)
  else
    match createRes with
    | .error msg => (s, [], ⟨500, false, none, some msg⟩)
    | .ok sid =>
        let r : CallRec :=
          { sid := sid, toNumber := toNumber, name := name, status := .initiated,
            duration := 0, startTime := now, answeredTime := none,
            recordingUrl := none, recordingSid := none, lastUpdate := none }
        (s.set sid r, [⟨sid, .initiated, 0, none, now⟩], ⟨200, true, some sid, none⟩)

/-! ### POST /webhooks/call-status (server.js:617-695) -/

/-- The form fields the webhook handler reads. `callDuration` is `some n` when
the `CallDuration` form field is present with numeric text (its JS truthiness),
`none` when absent or empty. -/
structure WebhookReq where
  callSid : String
  callStatus : CStatus
  callDuration : Option Nat
  recordingUrl : Option String
  deriving DecidableEq, Repr

/-- Result of the webhook handler: new store, broadcasts, HTTP code, and the
two pieces of `setTimeout`-deferred work (delayed recording fetch, delayed
eviction of the record), which do not run inside the handler. -/
structure WebhookOut where
  store : Store
  events : List Event
  code : Nat
  scheduledRecordingFetch : Bool
  scheduledEviction : Bool
  deriving DecidableEq, Repr

/-- The record mutation of the webhook handler on a cached call
(server.js:632-649): set the status unconditionally, stamp `answeredTime` on
the first (un-truthy) observation of `in-progress`, take `CallDuration` when
supplied else recompute from `answeredTime`, record a truthy `RecordingUrl`.
Returns the mutated record and the handler's local `duration` variable. -/
def webhookApply (c : CallRec) (req : WebhookReq) (now : Nat) : CallRec × Nat :=
  let duration0 := jsOrNat req.callDuration 0
  let c1 := { c with status := req.callStatus, lastUpdate := some now }
  let c2 :=
    if req.callStatus = .inProgress ∧ jsTruthyTime c1.answeredTime = false then
      { c1 with answeredTime := some now }
    else c1
  let step3 : CallRec × Nat :=
    match req.callDuration with
    | some _ => ({ c2 with duration := duration0 }, duration0)
    | none =>
        if jsTruthyTime c2.answeredTime = true then
          let d := (now - c2.answeredTime.getD 0) / 1000
          ({ c2 with duration := d }, d)
        else (c2, duration0)
  let c3 := step3.1
  let c4 :=
    if jsTruthyStr req.recordingUrl = true then
      { c3 with recordingUrl := req.recordingUrl }
    else c3
  (c4, step3.2)

/-- `POST /webhooks/call-status`: if the call is cached, mutate it with
`webhookApply` and schedule deferred work; cached or not, broadcast once and
answer 200. -/
def webhookCallStatus (s : Store) (req : WebhookReq) (hasClient : Bool)
    (now : Nat) : WebhookOut :=
  match s.get req.callSid with
  | none =>
      { store := s,
        events := [⟨req.callSid, req.callStatus, jsOrNat req.callDuration 0,
                    jsOrStr req.recordingUrl none, now⟩],
        code := 200, scheduledRecordingFetch := false, scheduledEviction := false }
  | some c =>
      let c4 := (webhookApply c req now).1
      let dur := (webhookApply c req now).2
      { store := s.set req.callSid c4,
        events := [⟨req.callSid, req.callStatus, dur,
                    jsOrStr req.recordingUrl c4.recordingUrl, now⟩],
        code := 200,
        scheduledRecordingFetch :=
          req.callStatus = .completed ∧ jsTruthyStr c4.recordingUrl = false
            ∧ hasClient = true,
        scheduledEviction := decide (req.callStatus ∈ terminalStatuses) }

/-! ### GET /call-status/:sid (server.js:203-294) -/

/-- The JSON response of `/call-status/:sid` (`404` carries no fields). -/
structure StatusResp where
  code : Nat
  status : Option CStatus
  duration : Option Nat
  recordingUrl : Option String
  deriving DecidableEq, Repr

/-- Outcome of `twilioClient.calls(sid).fetch()`: the provider's status and
duration, or a thrown error. -/
inductive FetchRes
  | ok (status : CStatus) (duration : Option Nat)
  | err
  deriving DecidableEq, Repr

/-- The guard on the live-poll branch (server.js:210): status is
`in-progress`, `ringing`, `queued` or `initiated`. -/
def isPollActive (st : CStatus) : Bool :=
  (st == .inProgress) || (st == .ringing) || (st == .queued) || (st == .initiated)

/-- The shared cached-answer path (server.js:260-270): recompute the duration
of a live answered call, then answer from the cache. -/
def cacheRespond (s : Store) (sid : String) (c : CallRec) (now : Nat) :
    Store × StatusResp :=
  let c1 :=
    if c.status = .inProgress ∧ jsTruthyTime c.answeredTime = true then
      { c with duration := (now - c.answeredTime.getD 0) / 1000 }
    else c
  (s.set sid c1, ⟨200, some c1.status, some c1.duration, c1.recordingUrl⟩)

/-- The silent cache refresh of the poll path when the polled status is
non-terminal (server.js:234-245): adopt the polled status if it differs,
stamp `answeredTime` on a first (un-truthy) `in-progress`, then recompute the
duration of a live answered call. -/
def pollRefresh (c : CallRec) (tst : CStatus) (now : Nat) : CallRec :=
  let c1 :=
    if tst ≠ c.status then
      let cA := { c with status := tst }
      if tst = .inProgress ∧ jsTruthyTime cA.answeredTime = false then
        { cA with answeredTime := some now }
      else cA
    else c
  if c1.status = .inProgress ∧ jsTruthyTime c1.answeredTime = true then
    { c1 with duration := (now - c1.answeredTime.getD 0) / 1000 }
  else c1

/-- `GET /call-status/:sid`: for a cached live call with a provider client,
poll the provider (`fetch`); a polled terminal status is applied and broadcast
before answering, a polled non-terminal status refreshes the cache silently;
otherwise answer from cache; an uncached sid is answered by a one-shot
provider fetch without creating a record. -/
def callStatusQuery (s : Store) (sid : String) (hasClient : Bool)
    (fetch : FetchRes) (now : Nat) : Store × List Event × StatusResp :=
  match s.get sid with
  | some c =>
      if hasClient && isPollActive c.status then
        match fetch with
        | .ok tst pd =>
            if tst ∈ terminalStatuses ∧ c.status ∉ terminalStatuses then
              let dur := jsOrNat pd c.duration
              let c1 := { c with status := tst, duration := dur }
              (s.set sid c1, [⟨sid, tst, dur, c1.recordingUrl, now⟩],
               ⟨200, some tst, some dur, c1.recordingUrl⟩)
            else
              let c2 := pollRefresh c tst now
              (s.set sid c2, [], ⟨200, some c2.status, some c2.duration, c2.recordingUrl⟩)
        | .err =>
            let out := cacheRespond s sid c now
            (out.1, [], out.2)
      else
        let out := cacheRespond s sid c now
        (out.1, [], out.2)
  | none =>
      if hasClient = false then (s, [], ⟨404, none, none, none⟩)
      else
        match fetch with
        | .ok tst pd => (s, [], ⟨200, some tst, some (jsOrNat pd 0), none⟩)
        | .err => (s, [], ⟨404, none, none, none⟩)

/-! ### POST /hangup-call (server.js:297-351) -/

/-- Outcome of `twilioClient.calls(sid).update({status:'completed'})`:
success, the resource-gone error (`error.code === 20404`), or another
provider error. -/
inductive HangupProviderRes
  | ok
  | errGone
  | errOther (msg : String)
  deriving DecidableEq, Repr

/-- The JSON response of `/hangup-call`. `recordingUrl` is `none` when the
body carries no (or a null) recording URL. -/
structure HangupResp where
  code : Nat
  success : Bool
  status : Option CStatus
  duration : Option Nat
  recordingUrl : Option String
  errorMsg : Option String
  deriving DecidableEq, Repr

/-- The locally computed duration of the hangup handler (server.js:307-311):
seconds since `answeredTime` when the call is cached and answered, else 0. -/
def localHangupDuration (s : Store) (sid : String) (now : Nat) : Nat :=
  match s.get sid with
  | some c =>
      if jsTruthyTime c.answeredTime = true then
        (now - c.answeredTime.getD 0) / 1000
      else 0
  | none => 0

/-- `POST /hangup-call`: compute the local duration from `answeredTime`; ask
the provider to complete the call; on success (or with no provider client)
mark the cached record completed and broadcast; on the resource-gone error
broadcast and answer success without touching the cache; on another error
answer 500. -/
def hangupCall (s : Store) (sidIn : Option String) (hasClient : Bool)
    (pres : HangupProviderRes) (now : Nat) : Store × List Event × HangupResp :=
  if jsTruthyStr sidIn = false then
    (s, [], ⟨400, false, none, none, none, some "Call SID required"⟩)
  else
    let sid := sidIn.getD ""
    let cached := s.get sid
    let duration := localHangupDuration s sid now
    if hasClient = false then
      let s' :=
        match cached with
        | some c => s.set sid { c with status := .completed, duration := duration }
        | none => s
      (s', [⟨sid, .completed, duration, none, now⟩],
       ⟨200, true, some .completed, some duration, none, none⟩)
    else
      match pres with
      | .ok =>
          let s' :=
            match cached with
            | some c => s.set sid { c with status := .completed, duration := duration }
            | none => s
          let rurl :=
            match cached with
            | some c => jsOrStr c.recordingUrl none
            | none => none
          (s', [⟨sid, .completed, duration, rurl, now⟩],
           ⟨200, true, some .completed, some duration, rurl, none⟩)
      | .errGone =>
          (s, [⟨sid, .completed, duration, none, now⟩],
           ⟨200, true, some .completed, some duration, none, none⟩)
      | .errOther msg =>
          (s, [], ⟨500, false, none, none, none, some msg⟩)

/-! ### Helper facts about the status vocabulary -/

theorem terminal_not_pollActive {st : CStatus} (h : st ∈ terminalStatuses) :
    isPollActive st = false := by
  simp only [terminalStatuses, List.mem_cons, List.not_mem_nil, or_false] at h
  rcases h with rfl | rfl | rfl | rfl | rfl <;> rfl

theorem notTerminal_pollActive {st : CStatus} (h : st ∉ terminalStatuses) :
    isPollActive st = true := by
  cases st <;> first
    | rfl
    | exact absurd (by simp [terminalStatuses]) h

theorem terminal_ne_inProgress {st : CStatus} (h : st ∈ terminalStatuses) :
    st ≠ .inProgress := by
  simp only [terminalStatuses, List.mem_cons, List.not_mem_nil, or_false] at h
  rcases h with rfl | rfl | rfl | rfl | rfl <;> simp

theorem jsOrNat_some_zero (d : Nat) : jsOrNat (some d) 0 = d := by
  by_cases h : d = 0 <;> simp [jsOrNat, h]

theorem pollRefresh_status (c : CallRec) (tst : CStatus) (now : Nat) :
    (pollRefresh c tst now).status = tst := by
  simp only [pollRefresh]
  split_ifs <;> simp_all

theorem pollRefresh_answeredTime_preserved (c : CallRec) (tst : CStatus)
    (now t : Nat) (ht : c.answeredTime = some t) (h0 : t ≠ 0) :
    (pollRefresh c tst now).answeredTime = some t := by
  have htr : jsTruthyTime c.answeredTime = true := by simp [jsTruthyTime, ht, h0]
  simp only [pollRefresh]
  split_ifs <;> simp_all

theorem pollRefresh_recomputes (c : CallRec) (now t : Nat)
    (hst : c.status = .inProgress) (ht : c.answeredTime = some t) (h0 : t ≠ 0) :
    (pollRefresh c .inProgress now).duration = (now - t) / 1000 := by
  have htr : jsTruthyTime c.answeredTime = true := by simp [jsTruthyTime, ht, h0]
  simp only [pollRefresh]
  split_ifs <;> simp_all

theorem webhookApply_answeredTime_preserved (c : CallRec) (req : WebhookReq)
    (now t : Nat) (ht : c.answeredTime = some t) (h0 : t ≠ 0) :
    (webhookApply c req now).1.answeredTime = some t := by
  have htr : jsTruthyTime c.answeredTime = true := by simp [jsTruthyTime, ht, h0]
  cases hcd : req.callDuration <;>
    · simp only [webhookApply, hcd]
      split_ifs <;> simp_all

theorem webhookApply_stamps (c : CallRec) (req : WebhookReq) (now : Nat)
    (hst : req.callStatus = .inProgress)
    (ha : jsTruthyTime c.answeredTime = false) :
    (webhookApply c req now).1.answeredTime = some now := by
  cases hcd : req.callDuration <;>
    · simp only [webhookApply, hcd]
      split_ifs <;> simp_all

theorem webhookApply_duration_authoritative (c : CallRec) (req : WebhookReq)
    (now d : Nat) (hd : req.callDuration = some d) :
    (webhookApply c req now).1.duration = d ∧ (webhookApply c req now).2 = d := by
  refine ⟨?_, ?_⟩
  · simp only [webhookApply, hd, jsOrNat_some_zero]
    split_ifs <;> rfl
  · simp [webhookApply, hd, jsOrNat_some_zero]

theorem pollRefresh_stamps (c : CallRec) (now : Nat)
    (hne : c.status ≠ .inProgress)
    (ha : jsTruthyTime c.answeredTime = false) :
    (pollRefresh c .inProgress now).answeredTime = some now := by
  simp only [pollRefresh]
  split_ifs <;> simp_all

theorem cacheRespond_answeredTime (s : Store) (sid : String) (c : CallRec)
    (now : Nat) :
    ∃ c', (cacheRespond s sid c now).1.get sid = some c' ∧
      c'.answeredTime = c.answeredTime := by
  simp only [cacheRespond]
  split_ifs <;> exact ⟨_, Store.get_set_self _ _ _, rfl⟩

/-! ### Concrete fixtures used by witnesses and counterexamples -/

/-- A call that has reached the terminal status `completed`. -/
def rTerm : CallRec :=
  { sid := "CA1", toNumber := some "+15550001", name := some "Ali",
    status := .completed, duration := 9, startTime := 1000,
    answeredTime := some 2000, recordingUrl := none, recordingSid := none,
    lastUpdate := none }

/-- A live answered call: `in-progress`, answered at t=1000ms, with a
provider-reported duration of 100 seconds already applied. -/
def rLive : CallRec :=
  { sid := "CA1", toNumber := some "+15550001", name := some "Ali",
    status := .inProgress, duration := 100, startTime := 1000,
    answeredTime := some 1000, recordingUrl := none, recordingSid := none,
    lastUpdate := none }

/-! ### Claim theorems -/

/-- C8. Fan-out delivery respects filters and isolates failures: a subscriber
filtered to a different call `x ≠ y` never receives an event for call `y`;
every open subscriber with no filter or a filter equal to `y` receives it; and
removing a (disconnected) subscriber from the set never blocks delivery to any
remaining subscriber. -/
theorem fanout_filter_and_isolation (clients : List WsClient) (x y : String) :
    (∀ c ∈ clients, c.subscribedCallSid = some x → x ≠ "" → x ≠ y →
        c ∉ broadcastRecipients clients y) ∧
    (∀ c ∈ clients, c.isOpen = true →
        (c.subscribedCallSid = none ∨ c.subscribedCallSid = some y) →
        c ∈ broadcastRecipients clients y) ∧
    (∀ d c, c ∈ broadcastRecipients clients y → c ≠ d →
        c ∈ broadcastRecipients (clients.erase d) y) := by
  refine ⟨?_, ?_, ?_⟩
  · intro c _ hsub hx hxy hmem
    rw [broadcastRecipients, List.mem_filter] at hmem
    have hrecv : receivesBroadcast c y = false := by
      simp [receivesBroadcast, filterAllows, hsub, jsTruthyStr, hx, hxy]
    rw [hrecv] at hmem
    exact Bool.false_ne_true hmem.2
  · intro c hc hopen hf
    rw [broadcastRecipients, List.mem_filter]
    refine ⟨hc, ?_⟩
    rcases hf with h | h
    · simp [receivesBroadcast, filterAllows, h, jsTruthyStr, hopen]
    · by_cases hy : y = "" <;>
        simp [receivesBroadcast, filterAllows, h, jsTruthyStr, hopen, hy]
  · intro d c hmem hne
    rw [broadcastRecipients, List.mem_filter] at hmem ⊢
    exact ⟨(List.mem_erase_of_ne hne).mpr hmem.1, hmem.2⟩

theorem fanout_filter_and_isolation_w :
    ((⟨1, true, some "CAx"⟩ : WsClient) ∉
        broadcastRecipients [⟨1, true, some "CAx"⟩, ⟨2, true, none⟩] "CAy") ∧
    ((⟨2, true, none⟩ : WsClient) ∈
        broadcastRecipients [⟨1, true, some "CAx"⟩, ⟨2, true, none⟩] "CAy") := by
  have h := fanout_filter_and_isolation
    [⟨1, true, some "CAx"⟩, ⟨2, true, none⟩] "CAx" "CAy"
  exact ⟨h.1 ⟨1, true, some "CAx"⟩ (by simp) rfl (by decide) (by decide),
         h.2.1 ⟨2, true, none⟩ (by simp) rfl (Or.inl rfl)⟩

/-- C9, counterexample. The handler only recognizes
`{type:'SUBSCRIBE_CALL', callSid}`; a `{type:'SUBSCRIBE', callId}` message
leaves the connection's filter unchanged, so the connection keeps receiving
events for other call ids. -/
theorem subscribe_message_unrecognized :
    (handleWsMessage ⟨1, true, none⟩ ⟨"SUBSCRIBE", none, some "CA1"⟩).1 =
      (⟨1, true, none⟩ : WsClient) ∧
    (⟨1, true, none⟩ : WsClient) ∈ broadcastRecipients [⟨1, true, none⟩] "CA2" := by
  constructor
  · rfl
  · simp [broadcastRecipients, receivesBroadcast, filterAllows, jsTruthyStr]

/-- C9, amended. Sending `{type:'SUBSCRIBE_CALL', callSid}` (with a non-empty
`callSid`) narrows the connection's filter to that call id, after which
broadcasts for any other call id are not delivered to it. -/
theorem subscribeCall_narrows_filter
    (c : WsClient) (sid other : String) (cid2 : Option String)
    (hsid : sid ≠ "") (hother : other ≠ sid) :
    (handleWsMessage c ⟨"SUBSCRIBE_CALL", some sid, cid2⟩).1.subscribedCallSid =
        some sid ∧
    receivesBroadcast (handleWsMessage c ⟨"SUBSCRIBE_CALL", some sid, cid2⟩).1
        other = false := by
  have h1 : (handleWsMessage c ⟨"SUBSCRIBE_CALL", some sid, cid2⟩).1 =
      { c with subscribedCallSid := some sid } := by
    simp [handleWsMessage, jsTruthyStr, hsid]
  rw [h1]
  refine ⟨rfl, ?_⟩
  simp [receivesBroadcast, filterAllows, jsTruthyStr, hsid, Ne.symm hother]

theorem subscribeCall_narrows_filter_w :
    (handleWsMessage ⟨1, true, none⟩
        ⟨"SUBSCRIBE_CALL", some "CA1", none⟩).1.subscribedCallSid = some "CA1" ∧
    receivesBroadcast
        (handleWsMessage ⟨1, true, none⟩ ⟨"SUBSCRIBE_CALL", some "CA1", none⟩).1
        "CA2" = false :=
  subscribeCall_narrows_filter ⟨1, true, none⟩ "CA1" "CA2" none
    (by decide) (by decide)

/-- C10. A call-status webhook whose `CallSid` is not in the store still
answers 200, still broadcasts one `CALL_STATUS_UPDATE` event carrying the
webhook's status and (parsed) duration, and neither creates nor mutates any
record. -/
theorem webhook_unknown_sid_passthrough
    (s : Store) (req : WebhookReq) (hc : Bool) (now : Nat)
    (habs : s.get req.callSid = none) :
    webhookCallStatus s req hc now =
      { store := s,
        events := [⟨req.callSid, req.callStatus, jsOrNat req.callDuration 0,
                    jsOrStr req.recordingUrl none, now⟩],
        code := 200, scheduledRecordingFetch := false,
        scheduledEviction := false } := by
  simp [webhookCallStatus, habs]

theorem webhook_unknown_sid_passthrough_w :
    webhookCallStatus [] ⟨"CAX", .ringing, some 3, none⟩ true 5000 =
      ⟨[], [⟨"CAX", .ringing, 3, none, 5000⟩], 200, false, false⟩ :=
  webhook_unknown_sid_passthrough [] ⟨"CAX", .ringing, some 3, none⟩ true 5000 rfl

/-- C6. Origination is atomic with respect to the store: when the provider
rejects call creation, `/make-call` answers 500 with the provider's message
and leaves the store untouched with no broadcast; when the provider succeeds,
a record with status `initiated` is stored under the provider-issued id and
the success response names that id. -/
theorem makeCall_atomic_origination
    (s : Store) (toN nm : Option String) (htoN : jsTruthyStr toN = true)
    (now : Nat) :
    (∀ msg, makeCall s toN nm true (.error msg) now =
        (s, [], ⟨500, false, none, some msg⟩)) ∧
    (∀ sid,
      (makeCall s toN nm true (.ok sid) now).1.get sid =
        some { sid := sid, toNumber := toN, name := nm, status := .initiated,
               duration := 0, startTime := now, answeredTime := none,
               recordingUrl := none, recordingSid := none, lastUpdate := none } ∧
      (makeCall s toN nm true (.ok sid) now).2.1 = [⟨sid, .initiated, 0, none, now⟩] ∧
      (makeCall s toN nm true (.ok sid) now).2.2 = ⟨200, true, some sid, none⟩) := by
  constructor
  · intro msg
    simp [makeCall, htoN]
  · intro sid
    refine ⟨?_, ?_, ?_⟩ <;> simp [makeCall, htoN]

theorem makeCall_atomic_origination_w :
    makeCall [] (some "+15550001") (some "Ali") true (.error "boom") 1000 =
      ([], [], ⟨500, false, none, some "boom"⟩) :=
  (makeCall_atomic_origination [] (some "+15550001") (some "Ali") rfl 1000).1 "boom"

/-- C4, counterexample. The claim says a hangup answered by the provider's
resource-gone error (code 20404) updates the local record to `completed`;
in the code that catch branch broadcasts and answers success but never touches
the cache, so the record keeps its prior status (`in-progress` here). -/
theorem hangup_gone_record_not_updated :
    (hangupCall [("CA1", rLive)] (some "CA1") true .errGone 12000).2.2.success
        = true ∧
    ((hangupCall [("CA1", rLive)] (some "CA1") true .errGone 12000).1.get
        "CA1").map CallRec.status = some CStatus.inProgress := by
  decide

/-- C4, amended. A hangup the provider answers with the resource-gone error
returns success with the locally computed duration and emits one `completed`
broadcast, but leaves the store unchanged: the local record is not set to
`completed`. -/
theorem hangup_gone_idempotent_success
    (s : Store) (sidIn : Option String) (hs : jsTruthyStr sidIn = true)
    (now : Nat) :
    hangupCall s sidIn true .errGone now =
      (s, [⟨sidIn.getD "", .completed, localHangupDuration s (sidIn.getD "") now,
            none, now⟩],
       ⟨200, true, some .completed,
        some (localHangupDuration s (sidIn.getD "") now), none, none⟩) := by
  simp [hangupCall, hs]

theorem hangup_gone_idempotent_success_w :
    hangupCall [("CA1", rLive)] (some "CA1") true .errGone 12000 =
      ([("CA1", rLive)], [⟨"CA1", .completed, 11, none, 12000⟩],
       ⟨200, true, some .completed, some 11, none, none⟩) :=
  hangup_gone_idempotent_success [("CA1", rLive)] (some "CA1") rfl 12000

/-- C1, counterexample. The claim says every channel ignores updates to a
record that already has a terminal status; the webhook handler sets
`cachedCall.status = CallStatus` unconditionally, so a `ringing` webhook
arriving after `completed` moves the record back to `ringing`. -/
theorem webhook_overwrites_terminal_status :
    rTerm.status ∈ terminalStatuses ∧
    ((webhookCallStatus [("CA1", rTerm)] ⟨"CA1", .ringing, none, none⟩ true
        5000).store.get "CA1").map CallRec.status = some CStatus.ringing := by
  decide

/-- C1, amended. Terminal stickiness holds only on the poll/query channel: a
status query on a record whose cached status is terminal never changes the
record, emits no broadcast, and answers with the cached status; webhook and
hangup updates apply unconditionally and can overwrite a terminal status. -/
theorem poll_terminal_sticky
    (s : Store) (sid : String) (c : CallRec) (hget : s.get sid = some c)
    (hterm : c.status ∈ terminalStatuses) (hc : Bool) (f : FetchRes)
    (now : Nat) :
    (callStatusQuery s sid hc f now).1.get sid = some c ∧
    (callStatusQuery s sid hc f now).2.1 = [] ∧
    (callStatusQuery s sid hc f now).2.2.status = some c.status := by
  have hpa := terminal_not_pollActive hterm
  have hni := terminal_ne_inProgress hterm
  simp [callStatusQuery, hget, hpa, cacheRespond, hni]

theorem poll_terminal_sticky_w :
    (callStatusQuery [("CA1", rTerm)] "CA1" true (.ok .ringing none) 7000).1.get
        "CA1" = some rTerm ∧
    (callStatusQuery [("CA1", rTerm)] "CA1" true (.ok .ringing none) 7000).2.1
        = [] ∧
    (callStatusQuery [("CA1", rTerm)] "CA1" true (.ok .ringing none)
        7000).2.2.status = some rTerm.status :=
  poll_terminal_sticky [("CA1", rTerm)] "CA1" rTerm rfl (by decide) true
    (.ok .ringing none) 7000

/-- C3. A status query on a cached non-terminal record whose provider poll
returns a terminal status applies that status (and the polled duration) to the
record, emits exactly one broadcast carrying it, and answers with the polled
terminal status. -/
theorem poll_terminal_applies_and_broadcasts
    (s : Store) (sid : String) (c : CallRec) (hget : s.get sid = some c)
    (hlive : c.status ∉ terminalStatuses) (tst : CStatus) (pd : Option Nat)
    (hterm : tst ∈ terminalStatuses) (now : Nat) :
    (callStatusQuery s sid true (.ok tst pd) now).1.get sid =
        some { c with status := tst, duration := jsOrNat pd c.duration } ∧
    (callStatusQuery s sid true (.ok tst pd) now).2.1 =
        [⟨sid, tst, jsOrNat pd c.duration, c.recordingUrl, now⟩] ∧
    (callStatusQuery s sid true (.ok tst pd) now).2.2 =
        ⟨200, some tst, some (jsOrNat pd c.duration), c.recordingUrl⟩ := by
  have hpa := notTerminal_pollActive hlive
  simp [callStatusQuery, hget, hpa, hterm, hlive]

theorem poll_terminal_applies_and_broadcasts_w :
    (callStatusQuery [("CA1", rLive)] "CA1" true (.ok .completed (some 7))
        6000).1.get "CA1" =
      some { rLive with status := .completed, duration := 7 } ∧
    (callStatusQuery [("CA1", rLive)] "CA1" true (.ok .completed (some 7))
        6000).2.1 = [⟨"CA1", .completed, 7, none, 6000⟩] ∧
    (callStatusQuery [("CA1", rLive)] "CA1" true (.ok .completed (some 7))
        6000).2.2 = ⟨200, some .completed, some 7, none⟩ :=
  poll_terminal_applies_and_broadcasts [("CA1", rLive)] "CA1" rLive rfl
    (by decide) .completed (some 7) (by decide) 6000

/-- C7. A status query on a cached non-terminal record whose provider poll
returns a non-terminal status refreshes the cached record (it is replaced by
its `pollRefresh`, which adopts the polled status and recomputes the live
duration) without emitting any broadcast, and the response carries the live
polled status together with the refreshed duration. -/
theorem poll_nonterminal_silent_refresh
    (s : Store) (sid : String) (c : CallRec) (hget : s.get sid = some c)
    (hlive : c.status ∉ terminalStatuses) (tst : CStatus) (pd : Option Nat)
    (htst : tst ∉ terminalStatuses) (now : Nat) :
    (callStatusQuery s sid true (.ok tst pd) now).2.1 = [] ∧
    (callStatusQuery s sid true (.ok tst pd) now).1.get sid =
        some (pollRefresh c tst now) ∧
    (pollRefresh c tst now).status = tst ∧
    (callStatusQuery s sid true (.ok tst pd) now).2.2 =
      ⟨200, some tst, some (pollRefresh c tst now).duration,
       (pollRefresh c tst now).recordingUrl⟩ := by
  have hpa := notTerminal_pollActive hlive
  have hcond : ¬(tst ∈ terminalStatuses ∧ c.status ∉ terminalStatuses) :=
    fun h => htst h.1
  simp [callStatusQuery, hget, hpa, hcond, pollRefresh_status]

theorem poll_nonterminal_silent_refresh_w :
    (callStatusQuery [("CA1", rLive)] "CA1" true (.ok .ringing none) 6000).2.1
        = [] ∧
    (callStatusQuery [("CA1", rLive)] "CA1" true (.ok .ringing none) 6000).1.get
        "CA1" = some (pollRefresh rLive .ringing 6000) ∧
    (pollRefresh rLive .ringing 6000).status = .ringing ∧
    (callStatusQuery [("CA1", rLive)] "CA1" true (.ok .ringing none) 6000).2.2 =
      ⟨200, some .ringing, some (pollRefresh rLive .ringing 6000).duration,
       (pollRefresh rLive .ringing 6000).recordingUrl⟩ :=
  poll_nonterminal_silent_refresh [("CA1", rLive)] "CA1" rLive rfl (by decide)
    .ringing none (by decide) 6000

/-- A live answered call with no provider-reported duration applied yet. -/
def rLive0 : CallRec := { rLive with duration := 0 }

/-- C5, counterexample. A webhook supplies the authoritative provider duration
100 for a connected call answered at t=1000ms; a later status query at
t=6000ms that polls `in-progress` recomputes the duration locally from
`answeredTime` — the record, still connected, ends with duration 5, the
provider's 100 overwritten. -/
theorem provider_duration_recomputed_cex :
    (((webhookCallStatus [("CA1", rLive0)]
        ⟨"CA1", .inProgress, some 100, none⟩ true 2000).store.get "CA1").map
        CallRec.duration = some 100) ∧
    ((((callStatusQuery
        (webhookCallStatus [("CA1", rLive0)]
          ⟨"CA1", .inProgress, some 100, none⟩ true 2000).store
        "CA1" true (.ok .inProgress none) 6000).1.get "CA1").map
        CallRec.duration) = some 5) ∧
    ((((callStatusQuery
        (webhookCallStatus [("CA1", rLive0)]
          ⟨"CA1", .inProgress, some 100, none⟩ true 2000).store
        "CA1" true (.ok .inProgress none) 6000).1.get "CA1").map
        CallRec.status) = some CStatus.inProgress) := by
  decide

/-- C5, amended. A provider-reported duration is applied at the moment it is
supplied — a webhook carrying `CallDuration = d` sets the record's duration to
`d`, overwriting any estimate — but it is not remembered as authoritative:
while the call is still connected, a later status query that polls
`in-progress` recomputes the duration locally from `answeredTime`,
overwriting the provider-reported value. -/
theorem provider_duration_applied_not_remembered
    (s : Store) (sid : String) (c : CallRec) (hget : s.get sid = some c)
    (req : WebhookReq) (hsid : req.callSid = sid) (hc : Bool) (now : Nat) :
    (∀ d, req.callDuration = some d →
        ∃ c', (webhookCallStatus s req hc now).store.get sid = some c' ∧
          c'.duration = d) ∧
    (∀ t pd, c.status = .inProgress → c.answeredTime = some t → t ≠ 0 →
        ∃ c', (callStatusQuery s sid true (.ok .inProgress pd) now).1.get sid =
            some c' ∧ c'.duration = (now - t) / 1000) := by
  subst hsid
  constructor
  · intro d hd
    simp only [webhookCallStatus, hget]
    exact ⟨_, Store.get_set_self _ _ _,
      (webhookApply_duration_authoritative c req now d hd).1⟩
  · intro t pd hst ht h0
    have hpa : isPollActive c.status = true := by simp [isPollActive, hst]
    have hcond : ¬(CStatus.inProgress ∈ terminalStatuses ∧
        c.status ∉ terminalStatuses) := by
      intro h
      simp [terminalStatuses] at h
    simp only [callStatusQuery, hget, hpa, Bool.and_self, if_true,
      if_neg hcond]
    exact ⟨_, Store.get_set_self _ _ _,
      pollRefresh_recomputes c now t hst ht h0⟩

theorem provider_duration_applied_not_remembered_w :
    (∃ c', (webhookCallStatus [("CA1", rLive0)]
        ⟨"CA1", .inProgress, some 100, none⟩ true 2000).store.get "CA1" =
        some c' ∧ c'.duration = 100) ∧
    (∃ c', (callStatusQuery [("CA1", rLive0)] "CA1" true
        (.ok .inProgress none) 6000).1.get "CA1" = some c' ∧
        c'.duration = (6000 - 1000) / 1000) :=
  ⟨(provider_duration_applied_not_remembered [("CA1", rLive0)] "CA1" rLive0 rfl
      ⟨"CA1", .inProgress, some 100, none⟩ rfl true 2000).1 100 rfl,
   (provider_duration_applied_not_remembered [("CA1", rLive0)] "CA1" rLive0 rfl
      ⟨"CA1", .inProgress, some 100, none⟩ rfl true 6000).2 1000 none rfl rfl
      (by decide)⟩

/-- C2. `answeredTime` is written at most once: on the first observation of
`in-progress` — through a webhook, or through a poll on a record not yet
`in-progress` — a record with no `answeredTime` gets it stamped with the
current time, and on a record whose `answeredTime` is already set (to a
nonzero time) neither a webhook of any status nor a status query of any poll
outcome ever changes it. -/
theorem answeredTime_set_at_most_once
    (s : Store) (sid : String) (c : CallRec) (hget : s.get sid = some c)
    (req : WebhookReq) (hsid : req.callSid = sid) (hc : Bool) (f : FetchRes)
    (now : Nat) :
    (c.answeredTime = none → req.callStatus = .inProgress →
      ∃ c', (webhookCallStatus s req hc now).store.get sid = some c' ∧
        c'.answeredTime = some now) ∧
    (∀ pd, c.answeredTime = none → c.status ≠ .inProgress →
      c.status ∉ terminalStatuses →
      ∃ c', (callStatusQuery s sid true (.ok .inProgress pd) now).1.get sid =
        some c' ∧ c'.answeredTime = some now) ∧
    (∀ t, c.answeredTime = some t → t ≠ 0 →
      ∃ c', (webhookCallStatus s req hc now).store.get sid = some c' ∧
        c'.answeredTime = some t) ∧
    (∀ t, c.answeredTime = some t → t ≠ 0 →
      ∃ c', (callStatusQuery s sid hc f now).1.get sid = some c' ∧
        c'.answeredTime = some t) := by
  subst hsid
  refine ⟨?_, ?_, ?_, ?_⟩
  · intro hnone hst
    simp only [webhookCallStatus, hget]
    exact ⟨_, Store.get_set_self _ _ _,
      webhookApply_stamps c req now hst (by simp [jsTruthyTime, hnone])⟩
  · intro pd hnone hni hlive
    have hpa := notTerminal_pollActive hlive
    have hcond : ¬(CStatus.inProgress ∈ terminalStatuses ∧
        c.status ∉ terminalStatuses) := by
      intro h
      simp [terminalStatuses] at h
    simp only [callStatusQuery, hget, hpa, Bool.and_self, if_true,
      if_neg hcond]
    exact ⟨_, Store.get_set_self _ _ _,
      pollRefresh_stamps c now hni (by simp [jsTruthyTime, hnone])⟩
  · intro t ht h0
    simp only [webhookCallStatus, hget]
    exact ⟨_, Store.get_set_self _ _ _,
      webhookApply_answeredTime_preserved c req now t ht h0⟩
  · intro t ht h0
    simp only [callStatusQuery, hget]
    split
    · cases f with
      | ok tst pd =>
          by_cases hterm : tst ∈ terminalStatuses ∧
              c.status ∉ terminalStatuses
          · simp only [if_pos hterm]
            exact ⟨_, Store.get_set_self _ _ _, ht⟩
          · simp only [if_neg hterm]
            exact ⟨_, Store.get_set_self _ _ _,
              pollRefresh_answeredTime_preserved c tst now t ht h0⟩
      | err =>
          obtain ⟨c', hc', ha⟩ := cacheRespond_answeredTime s req.callSid c now
          exact ⟨c', hc', by rw [ha, ht]⟩
    · obtain ⟨c', hc', ha⟩ := cacheRespond_answeredTime s req.callSid c now
      exact ⟨c', hc', by rw [ha, ht]⟩

theorem answeredTime_set_at_most_once_w :
    (∃ c', (webhookCallStatus [("CA9", { rLive0 with answeredTime := none })]
        ⟨"CA9", .inProgress, none, none⟩ true 4000).store.get "CA9" = some c' ∧
        c'.answeredTime = some 4000) ∧
    (∃ c', (webhookCallStatus [("CA1", rLive)]
        ⟨"CA1", .inProgress, none, none⟩ true 9000).store.get "CA1" = some c' ∧
        c'.answeredTime = some 1000) := by
  refine ⟨?_, ?_⟩
  · exact (answeredTime_set_at_most_once
      [("CA9", { rLive0 with answeredTime := none })] "CA9"
      { rLive0 with answeredTime := none } rfl
      ⟨"CA9", .inProgress, none, none⟩ rfl true .err 4000).1 rfl rfl
  · exact (answeredTime_set_at_most_once [("CA1", rLive)] "CA1" rLive rfl
      ⟨"CA1", .inProgress, none, none⟩ rfl true .err 9000).2.2.1 1000 rfl
      (by decide)

end CallServer
